import Mathlib

/-!
Shallow embedding of the repository source file `shared.py` (an
assistive-communication relay: button triggers resolve to phrases, a
7-day rolling event history is kept in memory and in a JSON file, and a
small JSON-backed user/caretaker account layer sits beside it).

Modelling conventions:
- Python dicts (which preserve insertion order) become association
  lists `List (String × α)`; assignment replaces in place or appends.
- Timestamps are absolute seconds as `Nat`; the strftime format string
  of the source is abstracted into a pair of parameters
  `fmtTs : Nat → String` (serialisation) and
  `parseTs : String → Option Nat` (strptime, which can fail).
- `hashlib.sha256(...).hexdigest()` is abstracted into a parameter
  `hash : String → String`; no claim depends on more than the fact
  that it is a function.
- The persisted event file is modelled by the list of events it holds
  (`json.dump` of `asdict` per event keeps exactly the event fields).
- Functions whose Python return shape varies between branches (bare
  `False`, `{}`, `[]`, or a dict) return the JSON-like value type
  `PyVal`, so that the shape itself is visible in the model.
-/

namespace Shared

/-- The whitespace characters removed by Python `str.strip()`
(restricted to the ASCII whitespace set, which is all that the
repository ever feeds it). -/
def pyWhitespace : List Char := [' ', '\t', '\n', '\r', '\x0b', '\x0c']

/-- Python `str.strip()`: drop whitespace from both ends. -/
def pyStrip (s : String) : String :=
  ⟨((s.data.dropWhile fun c => pyWhitespace.contains c).reverse.dropWhile
      fun c => pyWhitespace.contains c).reverse⟩

/-- Python `str.upper()` on the ASCII range (`Char.toUpper` maps
exactly the letters a-z). -/
def pyUpper (s : String) : String := ⟨s.data.map Char.toUpper⟩

/-- Python `str.lower()` on the ASCII range. -/
def pyLower (s : String) : String := ⟨s.data.map Char.toLower⟩

/-- Python substring membership `c in s` for a single character. -/
def pyIn (c : Char) (s : String) : Bool := s.data.contains c

/-- Python `re.search` over a single character class: true iff some
character of the string matches the class. -/
def re_search (p : Char → Bool) (s : String) : Bool := s.data.any p

/-- The character class of the regex `[A-Z]`. -/
def isAsciiUpper (c : Char) : Bool := decide ('A' ≤ c) && decide (c ≤ 'Z')

/-- The character class of the regex `[0-9]`. -/
def isAsciiDigit (c : Char) : Bool := decide ('0' ≤ c) && decide (c ≤ '9')

/-- The character class of the regex `[A-Za-z0-9]`; its negation is the
class `[^A-Za-z0-9]` used for the special-character check. -/
def isAsciiAlnum (c : Char) : Bool :=
  isAsciiUpper c || isAsciiDigit c || (decide ('a' ≤ c) && decide (c ≤ 'z'))

/-- The `Event` dataclass of `shared.py`. -/
structure Event where
  ts : String
  source : String
  button : String
  language : String
  text : String
  device_id : String
  user_id : String
deriving DecidableEq

/-- Per-button entry of the static `CONFIG` table: a label and a map
from language code to phrase. -/
structure ButtonConfig where
  label : String
  texts : List (String × String)
deriving DecidableEq

/-- Lookup in an association-list dictionary: the value at the first
matching key (Python `d.get(k)` / `d[k]`). -/
def dictGet? {α : Type} : List (String × α) → String → Option α
  | [], _ => none
  | (k, v) :: rest, key => if k = key then some v else dictGet? rest key

/-- Key membership: Python `k in d`. -/
def hasKey {α : Type} (d : List (String × α)) (k : String) : Bool :=
  d.any fun p => decide (p.1 = k)

/-- Python dict assignment `d[k] = v`: replace in place when the key is
present (insertion order kept, keys are unique in a Python dict),
append otherwise. -/
def dictSet {α : Type} : List (String × α) → String → α → List (String × α)
  | [], k, v => [(k, v)]
  | (k1, v1) :: rest, k, v =>
      if k1 = k then (k, v) :: rest else (k1, v1) :: dictSet rest k v

/-- In-place mutation of the record stored at an existing key
(Python `d[k].field = ...`). -/
def dictUpdate {α : Type} :
    List (String × α) → String → (α → α) → List (String × α)
  | [], _, _ => []
  | (k1, v1) :: rest, k, f =>
      if k1 = k then (k, f v1) :: rest else (k1, v1) :: dictUpdate rest k f

/-- The static `CONFIG` table of `shared.py`, lines 30-37. -/
def CONFIG : List (String × ButtonConfig) :=
  [ ("BTN1", ⟨"Help",
      [("en", "I need help"), ("hi", "मुझे मदद चाहिए"),
       ("it", "Ho bisogno di aiuto"), ("de", "Ich brauche Hilfe"),
       ("fr", "J\x27ai besoin d\x27aide"), ("es", "Necesito ayuda")]⟩),
    ("BTN2", ⟨"Medicines please",
      [("en", "Medicines please"), ("hi", "कृपया दवाएं दें"),
       ("it", "Medicinali per favore"), ("de", "Medikamente bitte"),
       ("fr", "Médicaments s\x27il vous plaît"), ("es", "Medicinas por favor")]⟩),
    ("BTN3", ⟨"Water",
      [("en", "I need water"), ("hi", "मुझे पानी चाहिए"),
       ("it", "Ho bisogno di acqua"), ("de", "Ich brauche Wasser"),
       ("fr", "J\x27ai besoin d\x27eau"), ("es", "Necesito agua")]⟩),
    ("BTN4", ⟨"I need rest",
      [("en", "I need rest"), ("hi", "मुझे आराम चाहिए"),
       ("it", "Ho bisogno di riposo"), ("de", "Ich brauche Ruhe"),
       ("fr", "J\x27ai besoin de repos"), ("es", "Necesito descanso")]⟩),
    ("BTN5", ⟨"Come here",
      [("en", "Please come here"), ("hi", "कृपया यहाँ आइए"),
       ("it", "Per favore vieni qui"), ("de", "Bitte komm her"),
       ("fr", "S\x27il vous plaît, venez ici"), ("es", "Por favor ven aquí")]⟩),
    ("BTN6", ⟨"Emergency",
      [("en", "Emergency!"), ("hi", "आपातकाल!"),
       ("it", "Emergenza!"), ("de", "Notfall!"),
       ("fr", "Urgence!"), ("es", "¡Emergencia!")]⟩) ]

/-- Python truthiness of the optional `custom_text` argument:
`if custom_text:` is true iff it is a non-empty string. -/
def truthyStr : Option String → Bool
  | none => false
  | some s => s != ""

/-- The text-resolution step of `trigger` (lines 412-418): normalise
the button code, use a non-empty custom text verbatim, otherwise an
unknown button yields a placeholder, otherwise
`CONFIG[button]["texts"].get(language, CONFIG[button]["texts"]["en"])`
(every button of `CONFIG` carries an `"en"` phrase, so the inner
default is never reached and is modelled by `getD ""`). -/
def resolveText (button language : String) (custom_text : Option String) :
    String :=
  let b := pyUpper (pyStrip button)
  if truthyStr custom_text then custom_text.getD ""
  else
    match dictGet? CONFIG b with
    | none => "Unknown button " ++ b
    | some cfg =>
        (dictGet? cfg.texts language).getD ((dictGet? cfg.texts "en").getD "")

/-- The resolution cascade in the order the spec words it: customText
when non-empty; else the configured phrase for (button, language); else
the English phrase of the button when the language is absent from the
phrase table of that button; else the unknown-button placeholder. -/
def resolveTextSpec (button language : String) (custom_text : Option String) :
    String :=
  let b := pyUpper (pyStrip button)
  if truthyStr custom_text then custom_text.getD ""
  else
    match dictGet? CONFIG b with
    | some cfg =>
        match dictGet? cfg.texts language with
        | some phrase => phrase
        | none => (dictGet? cfg.texts "en").getD ""
    | none => "Unknown button " ++ b

/-- `timedelta(days=7)` in seconds. -/
def SEVEN_DAYS : Nat := 7 * 86400

/-- The prune cutoff `datetime.now() - timedelta(days=7)` as absolute
seconds (truncated subtraction; `now` is always far past seven days in
any real run). -/
def cutoffTime (now : Nat) : Nat := now - SEVEN_DAYS

/-- Whether an event survives a prune at time `now`: kept iff its
timestamp parses and is at or after the cutoff (`evt_ts >= cutoff`). -/
def nonExpired (parseTs : String → Option Nat) (now : Nat) (e : Event) : Bool :=
  match parseTs e.ts with
  | some t => decide (cutoffTime now ≤ t)
  | none => false

/-- `_load_events_from_file` (lines 44-62) applied to a present,
well-formed file: each item whose timestamp fails to parse is skipped
(per-item `except: pass`), each parsed item is kept iff at or after the
7-day cutoff, in file order. -/
def load_events_from_file (parseTs : String → Option Nat) (now : Nat) :
    List Event → List Event
  | [] => []
  | item :: rest =>
    match parseTs item.ts with
    | some t =>
        if cutoffTime now ≤ t then
          item :: load_events_from_file parseTs now rest
        else load_events_from_file parseTs now rest
    | none => load_events_from_file parseTs now rest

/-- `_save_events_to_file` (lines 64-70): the file afterwards holds the
serialised list itself (`json.dump` of `asdict` per event keeps exactly
the event fields, so deserialisation is the identity on this model). -/
def save_events_to_file (events : List Event) : List Event := events

/-- `_cleanup_old_events` (lines 75-80): filter `HISTORY` down to the
events at or after the 7-day cutoff and save the result. The list
comprehension calls `strptime` unguarded, so an unparseable timestamp
raises out of the function: that exceptional path is the `none`
result. Returns (new in-memory history, new file contents). -/
def cleanup_old_events (parseTs : String → Option Nat) (now : Nat)
    (history : List Event) : Option (List Event × List Event) :=
  if history.all (fun e => (parseTs e.ts).isSome) then
    let pruned := history.filter (nonExpired parseTs now)
    some (pruned, save_events_to_file pruned)
  else none

/-- `trigger` (lines 410-436), minus the speech side effect: resolve
the text, stamp a new event, insert it at the front of the history,
prune, and persist (the pruned history is saved by the cleanup and then
saved again on line 433). Returns (created event, new history, new file
contents); `none` is the exceptional path of an unparseable stored
timestamp inside the cleanup. -/
def trigger (parseTs : String → Option Nat) (fmtTs : Nat → String)
    (now : Nat) (button language source : String)
    (custom_text : Option String) (device_id user_id : String)
    (history : List Event) : Option (Event × List Event × List Event) :=
  let b := pyUpper (pyStrip button)
  let text := resolveText button language custom_text
  let evt : Event := ⟨fmtTs now, source, b, language, text, device_id, user_id⟩
  match cleanup_old_events parseTs now (evt :: history) with
  | some (h, _) => some (evt, h, save_events_to_file h)
  | none => none

/-- A device record (`users[uid]["devices"][device_id]`). -/
structure DeviceRecord where
  name : String
  registered_at : Nat
  last_seen : Nat
deriving DecidableEq

/-- A medicine entry is an opaque JSON object whose content the code
never inspects. -/
abbrev Medicine := List (String × String)

/-- A user record as created by `user_signup` (lines 147-160). The
`medicines` key is absent at signup and only created by
`set_user_medicines`, hence the `Option`. -/
structure UserRecord where
  email : String
  password_hash : String
  name : String
  phone : String
  theme : String
  security_question : String
  security_answer_hash : String
  created_at : Nat
  is_primary : Bool
  devices : List (String × DeviceRecord)
  caretakers : List String
  family : List String
  medicines : Option (List Medicine)
deriving DecidableEq

/-- The user database: the JSON object of `users.json`, an
insertion-ordered map from user id to record. -/
abbrev UserStore := List (String × UserRecord)

/-- The structured `{success, message(, user_id)}` dict returned by the
account operations that report errors structurally. -/
structure Result where
  success : Bool
  message : String
  user_id : Option String
deriving DecidableEq

/-- A JSON-like Python value, used for the operations whose return
shape varies between branches. -/
inductive PyVal where
  | str : String → PyVal
  | bool : Bool → PyVal
  | int : Nat → PyVal
  | list : List PyVal → PyVal
  | dict : List (String × PyVal) → PyVal

/-- Whether a Python value is a dict carrying a boolean success flag
and a string message (the structured error shape of the spec). -/
def hasSuccessAndMessage : PyVal → Bool
  | .dict kvs =>
      (kvs.any fun p => decide (p.1 = "success") &&
        match p.2 with | .bool _ => true | _ => false) &&
      (kvs.any fun p => decide (p.1 = "message") &&
        match p.2 with | .str _ => true | _ => false)
  | _ => false

/-- The dict a `Result` denotes in Python. -/
def resultToPy (r : Result) : PyVal :=
  .dict ([("success", .bool r.success), ("message", .str r.message)] ++
    match r.user_id with
    | some u => [("user_id", .str u)]
    | none => [])

/-- Whether some existing record already holds the given email
(the duplicate check loop, lines 131-133). -/
def emailTaken (users : UserStore) (email : String) : Bool :=
  users.any fun p => decide (p.2.email = email)

/-- The id of the first record holding the given email, in insertion
order (the lookup loops of `user_login`, `add_caretaker`,
`verify_security_answer`). -/
def findEntryByEmail : UserStore → String → Option (String × UserRecord)
  | [], _ => none
  | (uid, u) :: rest, email =>
      if u.email = email then some (uid, u) else findEntryByEmail rest email

/-- The record `user_signup` stores on success (lines 147-160). -/
def newUserRecord (hash : String → String) (now : Nat)
    (email password : String) (primary_account : Bool)
    (name phone security_question security_answer : Option String) :
    UserRecord :=
  { email := email
    password_hash := hash password
    name := name.getD ""
    phone := phone.getD ""
    theme := "light"
    security_question := security_question.getD ""
    security_answer_hash := hash (pyStrip (pyLower (security_answer.getD "")))
    created_at := now
    is_primary := primary_account
    devices := []
    caretakers := []
    family := []
    medicines := none }

/-- Outcome of `user_signup`: result dict, user store afterwards, and
whether `_save_users` was reached. -/
structure SignupOutcome where
  res : Result
  users : UserStore
  saved : Bool
deriving DecidableEq

/-- `user_signup` (lines 118-163): email format check, duplicate-email
check against every existing record, the four password-policy checks in
order, then creation of a fresh record under the freshly generated id
`newId` and a save. Every failure path returns before any mutation or
save. -/
def user_signup (hash : String → String) (now : Nat) (newId : String)
    (users : UserStore) (email password : String) (primary_account : Bool)
    (name phone security_question security_answer : Option String) :
    SignupOutcome :=
  if pyIn '@' email = false ∨ pyIn '.' email = false then
    ⟨⟨false, "Invalid email format", none⟩, users, false⟩
  else if emailTaken users email then
    ⟨⟨false, "Email already registered", none⟩, users, false⟩
  else if password.length < 7 then
    ⟨⟨false, "Password must be at least 7 characters", none⟩, users, false⟩
  else if re_search isAsciiUpper password = false then
    ⟨⟨false, "Password must include at least one uppercase letter", none⟩,
      users, false⟩
  else if re_search isAsciiDigit password = false then
    ⟨⟨false, "Password must include at least one digit", none⟩, users, false⟩
  else if re_search (fun c => ! isAsciiAlnum c) password = false then
    ⟨⟨false, "Password must include at least one special character", none⟩,
      users, false⟩
  else
    ⟨⟨true, "Account created", some newId⟩,
      dictSet users newId
        (newUserRecord hash now email password primary_account
          name phone security_question security_answer),
      true⟩

/-- `user_login` (lines 165-176): return on the first record matching
the email, comparing the stored hash with the hash of the attempt. -/
def user_login (hash : String → String) :
    UserStore → String → String → Result
  | [], _, _ => ⟨false, "Email not found", none⟩
  | (uid, u) :: rest, email, password =>
      if u.email = email then
        if u.password_hash = hash password then
          ⟨true, "Login successful", some uid⟩
        else ⟨false, "Incorrect password", none⟩
      else user_login hash rest email password

/-- `register_device` (lines 178-192): existence check, then upsert of
the device record with the current time as both timestamps. -/
def register_device (now : Nat) (users : UserStore)
    (user_id device_id device_name : String) : Result × UserStore :=
  if hasKey users user_id = false then
    (⟨false, "User not found", none⟩, users)
  else
    (⟨true, "Device \x27" ++ device_name ++ "\x27 registered", none⟩,
      dictUpdate users user_id fun u =>
        { u with devices :=
            dictSet u.devices device_id ⟨device_name, now, now⟩ })

/-- `get_user_devices` (lines 194-199): a bare `[]` for an unknown
user, else the list of device dicts with the id spliced in. -/
def get_user_devices (users : UserStore) (user_id : String) : PyVal :=
  match dictGet? users user_id with
  | none => .list []
  | some u => .list (u.devices.map fun p =>
      .dict [("id", .str p.1), ("name", .str p.2.name),
             ("registered_at", .int p.2.registered_at),
             ("last_seen", .int p.2.last_seen)])

/-- `add_caretaker` (lines 201-223): existence check on the account,
email lookup for the caretaker (`if not caretaker_id` also treats an
empty id as absent), duplicate check, then append and save. -/
def add_caretaker (users : UserStore) (user_id caretaker_email : String) :
    Result × UserStore :=
  if hasKey users user_id = false then
    (⟨false, "User not found", none⟩, users)
  else
    match findEntryByEmail users caretaker_email with
    | none => (⟨false, "Caretaker email not found", none⟩, users)
    | some (cid, _) =>
        if cid = "" then (⟨false, "Caretaker email not found", none⟩, users)
        else
          match dictGet? users user_id with
          | none => (⟨false, "User not found", none⟩, users)
          | some u =>
              if cid ∈ u.caretakers then
                (⟨false, "Caretaker already added", none⟩, users)
              else
                (⟨true, "Caretaker " ++ caretaker_email ++ " added", none⟩,
                  dictUpdate users user_id fun v =>
                    { v with caretakers := v.caretakers ++ [cid] })

/-- `get_accessible_accounts` (lines 225-235): own account first, then
every account whose caretaker list contains this user, in store order. -/
def get_accessible_accounts (users : UserStore) (user_id : String) :
    List String :=
  user_id ::
    (users.filter fun p => decide (user_id ∈ p.2.caretakers)).map fun p => p.1

/-- `set_user_theme` (lines 237-244): existence check; stores the
requested theme when it is light or dark, silently stores light
otherwise, and reports success either way. -/
def set_user_theme (users : UserStore) (user_id theme : String) :
    Result × UserStore :=
  if hasKey users user_id = false then
    (⟨false, "User not found", none⟩, users)
  else
    (⟨true, "Theme updated", none⟩,
      dictUpdate users user_id fun u =>
        { u with theme := if theme = "light" ∨ theme = "dark" then theme
                          else "light" })

/-- `get_user_profile` (lines 246-252): a bare `{}` for an unknown
user, else the four public fields (the `theme` key is present in every
record the code ever writes, so `user.get("theme", "light")` is the
field itself). -/
def get_user_profile (users : UserStore) (user_id : String) : PyVal :=
  match dictGet? users user_id with
  | none => .dict []
  | some u => .dict [("email", .str u.email), ("name", .str u.name),
                     ("phone", .str u.phone), ("theme", .str u.theme)]

/-- `get_user_medicines` (lines 254-260): a bare `[]` for an unknown
user, else `user.get("medicines", [])`. -/
def get_user_medicines (users : UserStore) (user_id : String) :
    List Medicine :=
  match dictGet? users user_id with
  | none => []
  | some u => u.medicines.getD []

/-- `set_user_medicines` (lines 262-269): a bare `False` for an unknown
user, else writes the list and returns a bare `True`. -/
def set_user_medicines (users : UserStore) (user_id : String)
    (medicines : List Medicine) : PyVal × UserStore :=
  if hasKey users user_id = false then (.bool false, users)
  else
    (.bool true,
      dictUpdate users user_id fun u => { u with medicines := some medicines })

/-- `verify_security_answer` (lines 271-285): return on the first
record matching the email, comparing the stored answer hash with the
hash of the lowercased, stripped attempt. -/
def verify_security_answer (hash : String → String) :
    UserStore → String → String → Result
  | [], _, _ => ⟨false, "Email not found", none⟩
  | (uid, u) :: rest, email, provided_answer =>
      if u.email = email then
        if u.security_answer_hash = hash (pyStrip (pyLower provided_answer))
        then ⟨true, "Security answer verified", some uid⟩
        else ⟨false, "Security answer is incorrect", none⟩
      else verify_security_answer hash rest email provided_answer

/-- `reset_password` (lines 287-307): existence check, the same four
password-policy checks as signup, then overwrite of the stored hash. -/
def reset_password (hash : String → String) (users : UserStore)
    (user_id new_password : String) : Result × UserStore :=
  if hasKey users user_id = false then
    (⟨false, "User not found", none⟩, users)
  else if new_password.length < 7 then
    (⟨false, "Password must be at least 7 characters", none⟩, users)
  else if re_search isAsciiUpper new_password = false then
    (⟨false, "Password must include at least one uppercase letter", none⟩,
      users)
  else if re_search isAsciiDigit new_password = false then
    (⟨false, "Password must include at least one digit", none⟩, users)
  else if re_search (fun c => ! isAsciiAlnum c) new_password = false then
    (⟨false, "Password must include at least one special character", none⟩,
      users)
  else
    (⟨true, "Password reset successfully", none⟩,
      dictUpdate users user_id fun u =>
        { u with password_hash := hash new_password })

/-- The store-touching account operations, for stating store
invariants. `login` and `verifyAnswer` never write; the pure getters
are omitted since they take no store argument back. -/
inductive AccountOp where
  | signup (now : Nat) (newId email password : String) (primary : Bool)
      (name phone sq sa : Option String)
  | login (email password : String)
  | registerDevice (now : Nat) (user_id device_id device_name : String)
  | addCaretaker (user_id caretaker_email : String)
  | setTheme (user_id theme : String)
  | setMedicines (user_id : String) (meds : List Medicine)
  | verifyAnswer (email answer : String)
  | resetPassword (user_id new_password : String)

/-- The user store after one account operation. -/
def applyOp (hash : String → String) (users : UserStore) :
    AccountOp → UserStore
  | .signup now newId email pw primary name phone sq sa =>
      (user_signup hash now newId users email pw primary name phone sq sa).users
  | .login _ _ => users
  | .registerDevice now uid did dname =>
      (register_device now users uid did dname).2
  | .addCaretaker uid cemail => (add_caretaker users uid cemail).2
  | .setTheme uid t => (set_user_theme users uid t).2
  | .setMedicines uid m => (set_user_medicines users uid m).2
  | .verifyAnswer _ _ => users
  | .resetPassword uid pw => (reset_password hash users uid pw).2

/-- Whether an operation is one of the two that write the theme field. -/
def writesTheme : AccountOp → Bool
  | .signup _ _ _ _ _ _ _ _ _ => true
  | .setTheme _ _ => true
  | _ => false

/-- The theme stored for a user id, when the id is present. -/
def themeAt (users : UserStore) (uid : String) : Option String :=
  (dictGet? users uid).map fun u => u.theme

/-- The theme field of every record is light or dark. -/
def themeOK (users : UserStore) : Prop :=
  ∀ p ∈ users, p.2.theme = "light" ∨ p.2.theme = "dark"

instance (users : UserStore) : Decidable (themeOK users) :=
  inferInstanceAs (Decidable (∀ p ∈ users, _ ∨ _))

/-- The four password-policy conditions as the spec words them: at
least 7 characters, at least one uppercase letter, one digit, and one
non-alphanumeric character (the regex character classes of the code). -/
def passwordPolicyOk (password : String) : Prop :=
  7 ≤ password.length ∧ re_search isAsciiUpper password = true ∧
  re_search isAsciiDigit password = true ∧
  re_search (fun c => ! isAsciiAlnum c) password = true

instance (password : String) : Decidable (passwordPolicyOk password) :=
  inferInstanceAs (Decidable (_ ∧ _ ∧ _ ∧ _))

/-- A concrete user record for evaluating the theorems: the record
signup stores for email a@b.c and password Abcde1! at time 0 (identity
standing in for the hash). -/
def wUser : UserRecord :=
  newUserRecord (fun s => s) 0 "a@b.c" "Abcde1!" true none none none none

/-- A one-user store for evaluating the theorems. -/
def wStore : UserStore := [("u1", wUser)]

/-- A concrete timestamp parser for evaluating the event theorems. -/
def c1Parse : String → Option Nat := fun s =>
  if s = "999999" then some 999999 else if s = "1" then some 1 else none

/-- A concrete recent event (timestamp 999999, inside the 7-day window
at time 1000000). -/
def c1New : Event :=
  ⟨"999999", "UI", "BTN1", "en", "I need help", "unknown", "default"⟩

/-- A concrete expired event (timestamp 1, outside the 7-day window at
time 1000000). -/
def c1Old : Event :=
  ⟨"1", "UI", "BTN1", "en", "I need help", "unknown", "default"⟩

/-- The store reached from an empty store by one valid signup (user id
u1, email a@b.c). -/
def c2Users0 : UserStore :=
  (user_signup (fun s => s) 0 "u1" [] "a@b.c" "Abcde1!" true
    none none none none).users

/-- The store reached from `c2Users0` by adding the email of u1 itself
as a caretaker of u1: afterwards u1 appears in its own caretaker list. -/
def c2Users1 : UserStore := (add_caretaker c2Users0 "u1" "a@b.c").2

/-! Helper lemmas about the association-list dictionary operations. -/

theorem dictGet?_eq_none {α : Type} {d : List (String × α)} {k : String}
    (h : hasKey d k = false) : dictGet? d k = none := by
  induction d with
  | nil => rfl
  | cons p rest ih =>
      simp only [hasKey, List.any_cons, Bool.or_eq_false_iff,
        decide_eq_false_iff_not] at h
      simp only [dictGet?]
      rw [if_neg h.1]
      exact ih (by simp [hasKey, h.2])

theorem dictGet?_dictSet {α : Type} (d : List (String × α)) (k : String)
    (v : α) (key : String) :
    dictGet? (dictSet d k v) key =
      if key = k then some v else dictGet? d key := by
  induction d with
  | nil =>
      by_cases h : key = k
      · subst h; simp [dictSet, dictGet?]
      · simp [dictSet, dictGet?, h, Ne.symm h]
  | cons p rest ih =>
      obtain ⟨k1, v1⟩ := p
      by_cases hp : k1 = k
      · subst hp
        by_cases hq : key = k1
        · subst hq; simp [dictSet, dictGet?]
        · simp [dictSet, dictGet?, hq, Ne.symm hq]
      · by_cases hq : k1 = key
        · subst hq
          simp [dictSet, dictGet?, hp, Ne.symm hp]
        · simp [dictSet, dictGet?, hp, hq, ih]

theorem dictGet?_dictUpdate {α : Type} (d : List (String × α)) (k : String)
    (f : α → α) (key : String) :
    dictGet? (dictUpdate d k f) key =
      if key = k then (dictGet? d key).map f else dictGet? d key := by
  induction d with
  | nil => simp [dictUpdate, dictGet?]
  | cons p rest ih =>
      obtain ⟨k1, v1⟩ := p
      by_cases hp : k1 = k
      · subst hp
        by_cases hq : key = k1
        · subst hq; simp [dictUpdate, dictGet?]
        · simp [dictUpdate, dictGet?, hq, Ne.symm hq]
      · by_cases hq : k1 = key
        · subst hq
          simp [dictUpdate, dictGet?, hp, Ne.symm hp]
        · simp [dictUpdate, dictGet?, hp, hq, ih]

/-! Helper lemmas about the email-scanning loops and signup. -/

theorem findEntryByEmail_eq_none {users : UserStore} {email : String}
    (h : emailTaken users email = false) :
    findEntryByEmail users email = none := by
  induction users with
  | nil => rfl
  | cons p rest ih =>
      obtain ⟨uid, u⟩ := p
      simp only [emailTaken, List.any_cons, Bool.or_eq_false_iff,
        decide_eq_false_iff_not] at h
      simp only [findEntryByEmail, if_neg h.1]
      exact ih (by simp [emailTaken, h.2])

theorem user_login_eq_find (hash : String → String) (users : UserStore)
    (email password : String) :
    user_login hash users email password =
      match findEntryByEmail users email with
      | none => ⟨false, "Email not found", none⟩
      | some (uid, u) =>
          if u.password_hash = hash password then
            ⟨true, "Login successful", some uid⟩
          else ⟨false, "Incorrect password", none⟩ := by
  induction users with
  | nil => rfl
  | cons p rest ih =>
      obtain ⟨uid, u⟩ := p
      by_cases h : u.email = email <;>
        simp [user_login, findEntryByEmail, h, ih]

theorem verify_security_answer_eq_find (hash : String → String)
    (users : UserStore) (email provided_answer : String) :
    verify_security_answer hash users email provided_answer =
      match findEntryByEmail users email with
      | none => ⟨false, "Email not found", none⟩
      | some (uid, u) =>
          if u.security_answer_hash = hash (pyStrip (pyLower provided_answer))
          then ⟨true, "Security answer verified", some uid⟩
          else ⟨false, "Security answer is incorrect", none⟩ := by
  induction users with
  | nil => rfl
  | cons p rest ih =>
      obtain ⟨uid, u⟩ := p
      by_cases h : u.email = email <;>
        simp [verify_security_answer, findEntryByEmail, h, ih]

theorem findEntryByEmail_dictSet {users : UserStore} {email newId : String}
    {v : UserRecord} (hfree : emailTaken users email = false)
    (hv : v.email = email) :
    findEntryByEmail (dictSet users newId v) email = some (newId, v) := by
  induction users with
  | nil => simp [dictSet, findEntryByEmail, hv]
  | cons p rest ih =>
      obtain ⟨k1, u1⟩ := p
      simp only [emailTaken, List.any_cons, Bool.or_eq_false_iff,
        decide_eq_false_iff_not] at hfree
      by_cases hk : k1 = newId
      · simp [dictSet, hk, findEntryByEmail, hv]
      · simp only [dictSet, if_neg hk, findEntryByEmail, if_neg hfree.1]
        exact ih (by simp [emailTaken, hfree.2])

theorem user_signup_success_spec (hash : String → String) (now : Nat)
    (newId : String) (users : UserStore) (email password : String)
    (primary_account : Bool)
    (name phone security_question security_answer : Option String)
    (hs : (user_signup hash now newId users email password primary_account
      name phone security_question security_answer).res.success = true) :
    pyIn '@' email = true ∧ pyIn '.' email = true ∧
    emailTaken users email = false ∧ 7 ≤ password.length ∧
    re_search isAsciiUpper password = true ∧ re_search isAsciiDigit password = true ∧
    re_search (fun c => ! isAsciiAlnum c) password = true ∧
    user_signup hash now newId users email password primary_account
        name phone security_question security_answer =
      ⟨⟨true, "Account created", some newId⟩,
        dictSet users newId
          (newUserRecord hash now email password primary_account
            name phone security_question security_answer), true⟩ := by
  unfold user_signup at hs ⊢
  by_cases h1 : pyIn '@' email = false ∨ pyIn '.' email = false
  · rw [if_pos h1] at hs; exact absurd hs (by simp)
  · rw [if_neg h1] at hs ⊢
    by_cases h2 : emailTaken users email = true
    · rw [if_pos h2] at hs; exact absurd hs (by simp)
    · rw [if_neg h2] at hs ⊢
      by_cases h3 : password.length < 7
      · rw [if_pos h3] at hs; exact absurd hs (by simp)
      · rw [if_neg h3] at hs ⊢
        by_cases h4 : re_search isAsciiUpper password = false
        · rw [if_pos h4] at hs; exact absurd hs (by simp)
        · rw [if_neg h4] at hs ⊢
          by_cases h5 : re_search isAsciiDigit password = false
          · rw [if_pos h5] at hs; exact absurd hs (by simp)
          · rw [if_neg h5] at hs ⊢
            by_cases h6 : re_search (fun c => ! isAsciiAlnum c) password = false
            · rw [if_pos h6] at hs; exact absurd hs (by simp)
            · rw [if_neg h6] at hs ⊢
              push_neg at h1
              refine ⟨by simpa using h1.1, by simpa using h1.2,
                by simpa using h2, Nat.not_lt.1 h3, by simpa using h4,
                by simpa using h5, by simpa using h6, rfl⟩

theorem user_signup_cases (hash : String → String) (now : Nat)
    (newId : String) (users : UserStore) (email password : String)
    (primary_account : Bool)
    (name phone security_question security_answer : Option String) :
    user_signup hash now newId users email password primary_account
        name phone security_question security_answer =
      ⟨⟨true, "Account created", some newId⟩,
        dictSet users newId
          (newUserRecord hash now email password primary_account
            name phone security_question security_answer), true⟩ ∨
    ((user_signup hash now newId users email password primary_account
        name phone security_question security_answer).res.success = false ∧
      (user_signup hash now newId users email password primary_account
        name phone security_question security_answer).users = users ∧
      (user_signup hash now newId users email password primary_account
        name phone security_question security_answer).saved = false) := by
  unfold user_signup
  by_cases h1 : pyIn '@' email = false ∨ pyIn '.' email = false
  · rw [if_pos h1]; exact Or.inr ⟨rfl, rfl, rfl⟩
  · rw [if_neg h1]
    by_cases h2 : emailTaken users email = true
    · rw [if_pos h2]; exact Or.inr ⟨rfl, rfl, rfl⟩
    · rw [if_neg h2]
      by_cases h3 : password.length < 7
      · rw [if_pos h3]; exact Or.inr ⟨rfl, rfl, rfl⟩
      · rw [if_neg h3]
        by_cases h4 : re_search isAsciiUpper password = false
        · rw [if_pos h4]; exact Or.inr ⟨rfl, rfl, rfl⟩
        · rw [if_neg h4]
          by_cases h5 : re_search isAsciiDigit password = false
          · rw [if_pos h5]; exact Or.inr ⟨rfl, rfl, rfl⟩
          · rw [if_neg h5]
            by_cases h6 : re_search (fun c => ! isAsciiAlnum c) password = false
            · rw [if_pos h6]; exact Or.inr ⟨rfl, rfl, rfl⟩
            · rw [if_neg h6]; exact Or.inl rfl

/-- C1: after a prune pass of the cleanup invoked on every trigger, the
in-memory history and the persisted file coincide, contain only events
that were in the history, every event strictly older than the 7-day
cutoff is absent from both, and every event within the window that was
in the history is retained in both. -/
theorem c1_prune_seven_day_window (parseTs : String → Option Nat) (now : Nat)
    (history h f : List Event)
    (hc : cleanup_old_events parseTs now history = some (h, f)) :
    f = h ∧ (∀ e ∈ h, e ∈ history) ∧
    ∀ e t, parseTs e.ts = some t →
      (t < cutoffTime now → e ∉ h ∧ e ∉ f) ∧
      (cutoffTime now ≤ t → e ∈ history → e ∈ h ∧ e ∈ f) := by
  unfold cleanup_old_events at hc
  split at hc
  · simp only [save_events_to_file, Option.some.injEq, Prod.mk.injEq] at hc
    obtain ⟨rfl, rfl⟩ := hc
    refine ⟨rfl, fun e he => (List.mem_filter.1 he).1, fun e t hpt => ?_⟩
    constructor
    · intro hlt
      have hne : nonExpired parseTs now e = false := by
        simp [nonExpired, hpt]; omega
      constructor <;>
        · intro hmem
          have := (List.mem_filter.1 hmem).2
          rw [hne] at this
          exact absurd this (by simp)
    · intro hge hmem
      have hne : nonExpired parseTs now e = true := by
        simp [nonExpired, hpt]; omega
      exact ⟨List.mem_filter.2 ⟨hmem, hne⟩, List.mem_filter.2 ⟨hmem, hne⟩⟩
  · exact absurd hc (by simp)

/-- C1 witness: pruning a history holding one event inside the 7-day
window (timestamp 999999 at time 1000000) and one outside (timestamp
1), the expired event is absent from the resulting history and file. -/
theorem c1_prune_seven_day_window_witness :
    c1Old ∉ ([c1New] : List Event) ∧ c1Old ∉ ([c1New] : List Event) :=
  ((c1_prune_seven_day_window c1Parse 1000000 [c1New, c1Old]
    [c1New] [c1New] (by decide)).2.2 c1Old 1 (by decide)).1 (by decide)

/-- C7: saving any list of events and reloading yields exactly the
events of the original list that are non-expired at reload time (the
timestamp parses and is within the 7-day window), in the same order. -/
theorem c7_save_load_roundtrip (parseTs : String → Option Nat) (now : Nat)
    (events : List Event) :
    load_events_from_file parseTs now (save_events_to_file events) =
      events.filter (nonExpired parseTs now) := by
  induction events with
  | nil => rfl
  | cons e rest ih =>
      simp only [save_events_to_file] at ih ⊢
      cases hp : parseTs e.ts with
      | none =>
          simp [load_events_from_file, hp, List.filter_cons, nonExpired, ih]
      | some t =>
          by_cases hle : cutoffTime now ≤ t <;>
            simp [load_events_from_file, hp, hle, List.filter_cons,
              nonExpired, ih]

/-- C7 witness: the round trip evaluated on a concrete two-event list
keeps exactly the non-expired event. -/
theorem c7_save_load_roundtrip_witness :
    load_events_from_file c1Parse 1000000
        (save_events_to_file [c1New, c1Old]) =
      List.filter (nonExpired c1Parse 1000000) [c1New, c1Old] :=
  c7_save_load_roundtrip c1Parse 1000000 [c1New, c1Old]

/-- C3: the text resolved by a trigger invocation follows the cascade
of the spec (a non-empty customText; else the configured phrase for the
button and language; else the English phrase of the button; else the
unknown-button placeholder), and in particular BTN3/fr resolves to the
French water phrase and the unrecognized BTN9 to the placeholder. -/
theorem c3_text_resolution :
    (∀ button language custom_text,
      resolveText button language custom_text =
        resolveTextSpec button language custom_text) ∧
    (∀ parseTs fmtTs now button language source custom_text device_id
        user_id history evt h f,
      trigger parseTs fmtTs now button language source custom_text
          device_id user_id history = some (evt, h, f) →
      evt.text = resolveTextSpec button language custom_text) ∧
    resolveText "BTN3" "fr" none = "J\x27ai besoin d\x27eau" ∧
    resolveText "BTN9" "en" none = "Unknown button BTN9" := by
  have hequiv : ∀ b l c, resolveText b l c = resolveTextSpec b l c := by
    intro b l c
    unfold resolveText resolveTextSpec
    cases ht : truthyStr c
    · simp only [Bool.false_eq_true, if_neg]
      cases hcfg : dictGet? CONFIG (pyUpper (pyStrip b)) with
      | none => rfl
      | some cfg =>
          cases hl : dictGet? cfg.texts l <;> simp [hl]
    · simp
  refine ⟨hequiv, ?_, by decide, by decide⟩
  intro parseTs fmtTs now b l src c d u history evt h f ht
  simp only [trigger] at ht
  split at ht
  · simp only [Option.some.injEq, Prod.mk.injEq] at ht
    rw [← ht.1]
    exact hequiv b l c
  · exact absurd ht (by simp)

/-- C3 witness: a concrete trigger invocation of BTN3 in French with no
custom text produces an event whose text is the spec-side resolution. -/
theorem c3_text_resolution_witness :
    (⟨"t0", "UI", "BTN3", "fr", "J\x27ai besoin d\x27eau", "unknown",
      "default"⟩ : Event).text = resolveTextSpec "BTN3" "fr" none :=
  c3_text_resolution.2.1 (fun _ => some 1000000) (fun _ => "t0") 1000000
    "BTN3" "fr" "UI" none "unknown" "default" []
    ⟨"t0", "UI", "BTN3", "fr", "J\x27ai besoin d\x27eau", "unknown", "default"⟩
    [⟨"t0", "UI", "BTN3", "fr", "J\x27ai besoin d\x27eau", "unknown",
      "default"⟩]
    [⟨"t0", "UI", "BTN3", "fr", "J\x27ai besoin d\x27eau", "unknown",
      "default"⟩]
    (by decide)

/-- C4: whenever a signup is accepted, logging in on the resulting
store with the same email and password succeeds and returns the very
user id the signup returned. -/
theorem c4_signup_then_login (hash : String → String) (now : Nat)
    (newId : String) (users : UserStore) (email password : String)
    (primary_account : Bool)
    (name phone security_question security_answer : Option String)
    (hs : (user_signup hash now newId users email password primary_account
      name phone security_question security_answer).res.success = true) :
    user_login hash
        (user_signup hash now newId users email password primary_account
          name phone security_question security_answer).users
        email password =
      ⟨true, "Login successful",
        (user_signup hash now newId users email password primary_account
          name phone security_question security_answer).res.user_id⟩ := by
  obtain ⟨-, -, hfree, -, -, -, -, heq⟩ :=
    user_signup_success_spec hash now newId users email password
      primary_account name phone security_question security_answer hs
  rw [heq]
  rw [user_login_eq_find,
    findEntryByEmail_dictSet hfree (by simp [newUserRecord])]
  simp [newUserRecord]

/-- C4 witness: a concrete valid signup on the empty store followed by
a login with the same credentials. -/
theorem c4_signup_then_login_witness :
    user_login (fun s => s)
        (user_signup (fun s => s) 0 "u1" [] "a@b.c" "Abcde1!" true
          none none none none).users "a@b.c" "Abcde1!" =
      ⟨true, "Login successful",
        (user_signup (fun s => s) 0 "u1" [] "a@b.c" "Abcde1!" true
          none none none none).res.user_id⟩ :=
  c4_signup_then_login (fun s => s) 0 "u1" [] "a@b.c" "Abcde1!" true
    none none none none (by decide)

/-- C5: signing up with an email already held by some record (emails of
registered records contain an at sign and a dot) fails with the
duplicate-email message, returns the store unchanged, and does not
save. -/
theorem c5_duplicate_email_signup (hash : String → String) (now : Nat)
    (newId : String) (users : UserStore) (email password : String)
    (primary_account : Bool)
    (name phone security_question security_answer : Option String)
    (uid : String) (u : UserRecord) (hmem : (uid, u) ∈ users)
    (hemail : u.email = email) (hat : pyIn '@' email = true)
    (hdot : pyIn '.' email = true) :
    user_signup hash now newId users email password primary_account
        name phone security_question security_answer =
      ⟨⟨false, "Email already registered", none⟩, users, false⟩ := by
  have htaken : emailTaken users email = true :=
    List.any_eq_true.2 ⟨(uid, u), hmem, by simp [hemail]⟩
  unfold user_signup
  rw [if_neg (by simp [hat, hdot]), if_pos htaken]

/-- C5 witness: signing up a second account with the already-registered
email a@b.c fails with the duplicate message and leaves the one-user
store untouched. -/
theorem c5_duplicate_email_signup_witness :
    user_signup (fun s => s) 5 "u2" wStore "a@b.c" "Xyzzw9$" true
        none none none none =
      ⟨⟨false, "Email already registered", none⟩, wStore, false⟩ :=
  c5_duplicate_email_signup (fun s => s) 5 "u2" wStore "a@b.c" "Xyzzw9$"
    true none none none none "u1" wUser (by decide) (by decide)
    (by decide) (by decide)

/-- C6: with a well-formed, unregistered email, signup succeeds exactly
when the password meets all four policy conditions; for an existing
user, reset_password succeeds under exactly the same conditions; and
the password Abcde1! meets them. -/
theorem c6_password_policy (hash : String → String) (now : Nat)
    (newId : String) (users : UserStore) (email password uid : String)
    (primary_account : Bool)
    (name phone security_question security_answer : Option String)
    (hat : pyIn '@' email = true) (hdot : pyIn '.' email = true)
    (hfree : emailTaken users email = false)
    (huid : hasKey users uid = true) :
    ((user_signup hash now newId users email password primary_account
        name phone security_question security_answer).res.success = true ↔
      passwordPolicyOk password) ∧
    ((reset_password hash users uid password).1.success = true ↔
      passwordPolicyOk password) ∧
    passwordPolicyOk "Abcde1!" := by
  refine ⟨⟨fun hs => ?_, fun hpol => ?_⟩, ⟨fun hs => ?_, fun hpol => ?_⟩,
    by decide⟩
  · obtain ⟨-, -, -, h4, h5, h6, h7, -⟩ :=
      user_signup_success_spec hash now newId users email password
        primary_account name phone security_question security_answer hs
    exact ⟨h4, h5, h6, h7⟩
  · obtain ⟨hlen, hup, hdig, hsp⟩ := hpol
    unfold user_signup
    rw [if_neg (by simp [hat, hdot]), if_neg (by simp [hfree]),
      if_neg (Nat.not_lt.2 hlen), if_neg (by simp [hup]),
      if_neg (by simp [hdig]), if_neg (by simp [hsp])]
  · unfold reset_password at hs
    by_cases h1 : hasKey users uid = false
    · rw [if_pos h1] at hs; exact absurd hs (by simp)
    · rw [if_neg h1] at hs
      by_cases h3 : password.length < 7
      · rw [if_pos h3] at hs; exact absurd hs (by simp)
      · rw [if_neg h3] at hs
        by_cases h4 : re_search isAsciiUpper password = false
        · rw [if_pos h4] at hs; exact absurd hs (by simp)
        · rw [if_neg h4] at hs
          by_cases h5 : re_search isAsciiDigit password = false
          · rw [if_pos h5] at hs; exact absurd hs (by simp)
          · rw [if_neg h5] at hs
            by_cases h6 : re_search (fun c => ! isAsciiAlnum c) password
                = false
            · rw [if_pos h6] at hs; exact absurd hs (by simp)
            · exact ⟨Nat.not_lt.1 h3, by simpa using h4, by simpa using h5,
                by simpa using h6⟩
  · obtain ⟨hlen, hup, hdig, hsp⟩ := hpol
    unfold reset_password
    rw [if_neg (by simp [huid]), if_neg (Nat.not_lt.2 hlen),
      if_neg (by simp [hup]), if_neg (by simp [hdig]),
      if_neg (by simp [hsp])]

/-- C6 witness: on a one-user store with a fresh well-formed email,
signup with Abcde1! succeeds, reset_password for the existing user with
Abcde1! succeeds, and Abcde1! satisfies the policy. -/
theorem c6_password_policy_witness :
    ((user_signup (fun s => s) 0 "u9" wStore "new@x.y" "Abcde1!" true
        none none none none).res.success = true ↔
      passwordPolicyOk "Abcde1!") ∧
    ((reset_password (fun s => s) wStore "u1" "Abcde1!").1.success = true ↔
      passwordPolicyOk "Abcde1!") ∧
    passwordPolicyOk "Abcde1!" :=
  c6_password_policy (fun s => s) 0 "u9" wStore "new@x.y" "Abcde1!" "u1"
    true none none none none (by decide) (by decide) (by decide) (by decide)

/-- C10: a user signed up with no security answer (argument absent or
the empty string) stores the hash of the empty string, so verifying the
security answer for that email succeeds for every provided answer that
is empty after lowercasing and stripping (empty or whitespace-only). -/
theorem c10_empty_security_answer (hash : String → String) (now : Nat)
    (newId : String) (users : UserStore) (email password : String)
    (primary_account : Bool)
    (name phone security_question security_answer : Option String)
    (provided : String)
    (hsa : security_answer = none ∨ security_answer = some "")
    (hp : pyStrip (pyLower provided) = "")
    (hs : (user_signup hash now newId users email password primary_account
      name phone security_question security_answer).res.success = true) :
    verify_security_answer hash
        (user_signup hash now newId users email password primary_account
          name phone security_question security_answer).users
        email provided =
      ⟨true, "Security answer verified", some newId⟩ := by
  obtain ⟨-, -, hfree, -, -, -, -, heq⟩ :=
    user_signup_success_spec hash now newId users email password
      primary_account name phone security_question security_answer hs
  rw [heq]
  rw [verify_security_answer_eq_find,
    findEntryByEmail_dictSet hfree (by simp [newUserRecord])]
  have hstored :
      (newUserRecord hash now email password primary_account
        name phone security_question security_answer).security_answer_hash =
      hash (pyStrip (pyLower provided)) := by
    rcases hsa with rfl | rfl <;> simp [newUserRecord, hp] <;> rfl
  simp [hstored]

/-- C10 witness: signup with an empty security answer, then verifying
with a whitespace-only answer succeeds. -/
theorem c10_empty_security_answer_witness :
    verify_security_answer (fun s => s)
        (user_signup (fun s => s) 0 "u1" [] "a@b.c" "Abcde1!" true
          none none none (some "")).users "a@b.c" "   " =
      ⟨true, "Security answer verified", some "u1"⟩ :=
  c10_empty_security_answer (fun s => s) 0 "u1" [] "a@b.c" "Abcde1!" true
    none none none (some "") "   " (Or.inr rfl) (by decide) (by decide)

/-- C2 counterexample: starting from an empty store, one valid signup
(user u1) followed by add_caretaker of the own email of u1 puts u1 into
its own caretaker list; get_accessible_accounts then returns u1 twice,
so the returned list is not duplicate-free as the claim states. -/
theorem c2_self_caretaker_counterexample :
    get_accessible_accounts c2Users1 "u1" = ["u1", "u1"] ∧
    ¬ (get_accessible_accounts c2Users1 "u1").Nodup := by
  constructor
  · decide
  · decide

/-- C2 amended: get_accessible_accounts returns the user plus exactly
the accounts whose caretaker list contains the user (membership holds
for an id iff it is the user or an account listing the user), and the
list is duplicate-free provided the user is not in its own caretaker
list (if it is, the user id itself appears twice). -/
theorem c2_accessible_accounts_amended (users : UserStore) (U : String)
    (hkeys : (users.map Prod.fst).Nodup) (hU : hasKey users U = true) :
    (∀ a, a ∈ get_accessible_accounts users U ↔
      a = U ∨ ∃ u, (a, u) ∈ users ∧ U ∈ u.caretakers) ∧
    ((∀ u, (U, u) ∈ users → U ∉ u.caretakers) →
      (get_accessible_accounts users U).Nodup) := by
  constructor
  · intro a
    simp only [get_accessible_accounts, List.mem_cons, List.mem_map,
      List.mem_filter, decide_eq_true_eq]
    constructor
    · rintro (rfl | ⟨⟨a1, u⟩, ⟨hmem, hcare⟩, rfl⟩)
      · exact Or.inl rfl
      · exact Or.inr ⟨u, hmem, hcare⟩
    · rintro (rfl | ⟨u, hmem, hcare⟩)
      · exact Or.inl rfl
      · exact Or.inr ⟨(a, u), ⟨hmem, hcare⟩, rfl⟩
  · intro hself
    refine List.nodup_cons.2 ⟨?_, ?_⟩
    · intro hmemU
      obtain ⟨⟨a1, u⟩, hmem, heq⟩ := List.mem_map.1 hmemU
      obtain ⟨hmem1, hcare⟩ := List.mem_filter.1 hmem
      simp only at heq
      subst heq
      exact hself u hmem1 (by simpa using hcare)
    · exact hkeys.sublist ((List.filter_sublist users).map Prod.fst)

/-- C2 amended witness: on a one-user store where u1 is not its own
caretaker, u1 is in its accessible accounts and the list is
duplicate-free. -/
theorem c2_accessible_accounts_amended_witness :
    ("u1" ∈ get_accessible_accounts wStore "u1") ∧
    (get_accessible_accounts wStore "u1").Nodup :=
  ⟨((c2_accessible_accounts_amended wStore "u1" (by decide)
      (by decide)).1 "u1").2 (Or.inl rfl),
    (c2_accessible_accounts_amended wStore "u1" (by decide)
      (by decide)).2 fun u hu => by
        simp only [wStore, List.mem_singleton, Prod.mk.injEq] at hu
        rw [hu.2]
        decide⟩

/-- C8 counterexample: on the empty store (no user u0), the
unknown-user business error is reported by set_user_medicines as a bare
boolean False, by get_user_profile as a bare empty dict, and by
get_user_devices as a bare empty list: none of the three carries a
success flag and a message string, contradicting the claim that every
account-store operation reports such errors as a structured result. -/
theorem c8_unstructured_error_counterexample :
    set_user_medicines [] "u0" [] = (PyVal.bool false, []) ∧
    hasSuccessAndMessage (set_user_medicines [] "u0" []).1 = false ∧
    get_user_profile [] "u0" = PyVal.dict [] ∧
    hasSuccessAndMessage (get_user_profile [] "u0") = false ∧
    get_user_devices [] "u0" = PyVal.list [] ∧
    hasSuccessAndMessage (get_user_devices [] "u0") = false :=
  ⟨rfl, rfl, rfl, rfl, rfl, rfl⟩

/-- C8 amended: every Result-returning operation (signup, login,
register_device, add_caretaker, set_user_theme, verify_security_answer,
reset_password) reports its validation and business errors as a dict
with a boolean success flag and a message string, shown here on the
unknown-user and unknown-email paths; but get_user_profile,
get_user_devices, get_user_medicines and set_user_medicines report an
unknown user with the bare sentinel values empty dict, empty list,
empty list and False respectively, with no success flag and no
message; no operation raises. -/
theorem c8_error_reporting_amended (hash : String → String) (now : Nat)
    (users : UserStore)
    (uid theme device_id device_name caretaker_email new_password email
      password answer : String) (meds : List Medicine)
    (hmiss : hasKey users uid = false)
    (hmail : emailTaken users email = false) :
    (∀ r : Result, hasSuccessAndMessage (resultToPy r) = true) ∧
    set_user_theme users uid theme = (⟨false, "User not found", none⟩, users) ∧
    register_device now users uid device_id device_name =
      (⟨false, "User not found", none⟩, users) ∧
    add_caretaker users uid caretaker_email =
      (⟨false, "User not found", none⟩, users) ∧
    reset_password hash users uid new_password =
      (⟨false, "User not found", none⟩, users) ∧
    user_login hash users email password =
      ⟨false, "Email not found", none⟩ ∧
    verify_security_answer hash users email answer =
      ⟨false, "Email not found", none⟩ ∧
    get_user_profile users uid = PyVal.dict [] ∧
    get_user_devices users uid = PyVal.list [] ∧
    get_user_medicines users uid = [] ∧
    set_user_medicines users uid meds = (PyVal.bool false, users) := by
  have hget : dictGet? users uid = none := dictGet?_eq_none hmiss
  have hfind : findEntryByEmail users email = none :=
    findEntryByEmail_eq_none hmail
  refine ⟨?_, ?_, ?_, ?_, ?_, ?_, ?_, ?_, ?_, ?_, ?_⟩
  · intro r
    cases hu : r.user_id <;> simp [resultToPy, hasSuccessAndMessage, hu]
  · unfold set_user_theme; rw [if_pos hmiss]
  · unfold register_device; rw [if_pos hmiss]
  · unfold add_caretaker; rw [if_pos hmiss]
  · unfold reset_password; rw [if_pos hmiss]
  · rw [user_login_eq_find, hfind]
  · rw [verify_security_answer_eq_find, hfind]
  · unfold get_user_profile; rw [hget]
  · unfold get_user_devices; rw [hget]
  · unfold get_user_medicines; rw [hget]
  · unfold set_user_medicines; rw [if_pos hmiss]

/-- C8 amended witness: the amended statement evaluated on the empty
store at concrete arguments. -/
theorem c8_error_reporting_amended_witness :
    set_user_theme [] "u0" "dark" =
      (⟨false, "User not found", none⟩, ([] : UserStore)) ∧
    user_login (fun s => s) [] "a@b.c" "pw" =
      ⟨false, "Email not found", none⟩ ∧
    get_user_profile [] "u0" = PyVal.dict [] :=
  ⟨(c8_error_reporting_amended (fun s => s) 0 [] "u0" "dark" "d1" "dev"
      "c@d.e" "Np1!long" "a@b.c" "pw" "ans" [] rfl rfl).2.1,
    (c8_error_reporting_amended (fun s => s) 0 [] "u0" "dark" "d1" "dev"
      "c@d.e" "Np1!long" "a@b.c" "pw" "ans" [] rfl rfl).2.2.2.2.2.1,
    (c8_error_reporting_amended (fun s => s) 0 [] "u0" "dark" "d1" "dev"
      "c@d.e" "Np1!long" "a@b.c" "pw" "ans" [] rfl rfl).2.2.2.2.2.2.2.1⟩

/-! Helper lemmas about the theme invariant. -/

theorem themeOK_dictSet {users : UserStore} {k : String} {v : UserRecord}
    (h : themeOK users) (hv : v.theme = "light" ∨ v.theme = "dark") :
    themeOK (dictSet users k v) := by
  induction users with
  | nil =>
      intro p hp
      simp only [dictSet, List.mem_singleton] at hp
      rw [hp]; exact hv
  | cons q rest ih =>
      obtain ⟨k1, v1⟩ := q
      have h1 := h (k1, v1) (List.mem_cons_self _ _)
      have hrest : themeOK rest := fun p hp => h p (List.mem_cons_of_mem _ hp)
      intro p hp
      by_cases hk : k1 = k
      · simp only [dictSet, if_pos hk, List.mem_cons] at hp
        rcases hp with rfl | hp
        · exact hv
        · exact hrest p hp
      · simp only [dictSet, if_neg hk, List.mem_cons] at hp
        rcases hp with rfl | hp
        · exact h1
        · exact ih hrest p hp

theorem themeOK_dictUpdate {users : UserStore} {k : String}
    {f : UserRecord → UserRecord} (h : themeOK users)
    (hf : ∀ u : UserRecord, u.theme = "light" ∨ u.theme = "dark" →
      (f u).theme = "light" ∨ (f u).theme = "dark") :
    themeOK (dictUpdate users k f) := by
  induction users with
  | nil => intro p hp; simp [dictUpdate] at hp
  | cons q rest ih =>
      obtain ⟨k1, v1⟩ := q
      have h1 := h (k1, v1) (List.mem_cons_self _ _)
      have hrest : themeOK rest := fun p hp => h p (List.mem_cons_of_mem _ hp)
      intro p hp
      by_cases hk : k1 = k
      · simp only [dictUpdate, if_pos hk, List.mem_cons] at hp
        rcases hp with rfl | hp
        · exact hf v1 h1
        · exact hrest p hp
      · simp only [dictUpdate, if_neg hk, List.mem_cons] at hp
        rcases hp with rfl | hp
        · exact h1
        · exact ih hrest p hp

theorem themeAt_dictUpdate {users : UserStore} {k : String}
    {f : UserRecord → UserRecord}
    (hf : ∀ u : UserRecord, (f u).theme = u.theme) (uid : String) :
    themeAt (dictUpdate users k f) uid = themeAt users uid := by
  unfold themeAt
  rw [dictGet?_dictUpdate]
  by_cases h : uid = k
  · rw [if_pos h]; cases dictGet? users uid <;> simp [hf]
  · rw [if_neg h]

theorem applyOp_nonwriter_shape (hash : String → String) (users : UserStore)
    (op : AccountOp) (hop : writesTheme op = false) :
    applyOp hash users op = users ∨
    ∃ k f, (∀ u : UserRecord, (f u).theme = u.theme) ∧
      applyOp hash users op = dictUpdate users k f := by
  cases op with
  | signup now newId email pw primary name phone sq sa =>
      simp [writesTheme] at hop
  | login e p => exact Or.inl rfl
  | registerDevice now uid did dname =>
      by_cases h : hasKey users uid = false
      · left; simp [applyOp, register_device, h]
      · right
        refine ⟨uid, fun u =>
          { u with devices := dictSet u.devices did ⟨dname, now, now⟩ },
          fun u => rfl, ?_⟩
        simp [applyOp, register_device, h]
  | addCaretaker uid cemail =>
      by_cases h : hasKey users uid = false
      · left; simp [applyOp, add_caretaker, h]
      · cases hf : findEntryByEmail users cemail with
        | none => left; simp [applyOp, add_caretaker, h, hf]
        | some pr =>
            obtain ⟨cid, u0⟩ := pr
            by_cases hc : cid = ""
            · left; simp [applyOp, add_caretaker, h, hf, hc]
            · cases hg : dictGet? users uid with
              | none => left; simp [applyOp, add_caretaker, h, hf, hc, hg]
              | some u =>
                  by_cases hm : cid ∈ u.caretakers
                  · left; simp [applyOp, add_caretaker, h, hf, hc, hg, hm]
                  · right
                    refine ⟨uid, fun v =>
                      { v with caretakers := v.caretakers ++ [cid] },
                      fun v => rfl, ?_⟩
                    simp [applyOp, add_caretaker, h, hf, hc, hg, hm]
  | setTheme uid t => simp [writesTheme] at hop
  | setMedicines uid m =>
      by_cases h : hasKey users uid = false
      · left; simp [applyOp, set_user_medicines, h]
      · right
        refine ⟨uid, fun u => { u with medicines := some m },
          fun u => rfl, ?_⟩
        simp [applyOp, set_user_medicines, h]
  | verifyAnswer e a => exact Or.inl rfl
  | resetPassword uid pw =>
      by_cases h1 : hasKey users uid = false
      · left; simp [applyOp, reset_password, h1]
      · by_cases h3 : pw.length < 7
        · left; simp [applyOp, reset_password, h1, h3]
        · by_cases h4 : re_search isAsciiUpper pw = false
          · left; simp [applyOp, reset_password, h1, h3, h4]
          · by_cases h5 : re_search isAsciiDigit pw = false
            · left; simp [applyOp, reset_password, h1, h3, h4, h5]
            · by_cases h6 : re_search (fun c => ! isAsciiAlnum c) pw = false
              · left; simp [applyOp, reset_password, h1, h3, h4, h5, h6]
              · right
                refine ⟨uid, fun u => { u with password_hash := hash pw },
                  fun u => rfl, ?_⟩
                simp [applyOp, reset_password, h1, h3, h4, h5, h6]

/-- C9: on a store whose records all have theme light or dark, every
account operation preserves that invariant; a successful signup stores
theme light for the new user; set_user_theme on an existing user
reports success and stores the requested theme when it is light or
dark and light otherwise; and no operation other than signup and
set_user_theme changes the stored theme of any user. -/
theorem c9_theme_light_or_dark (hash : String → String) (users : UserStore)
    (op : AccountOp) (now : Nat) (newId email password uid theme : String)
    (primary_account : Bool) (name phone sq sa : Option String)
    (h : themeOK users) :
    themeOK (applyOp hash users op) ∧
    ((user_signup hash now newId users email password primary_account
        name phone sq sa).res.success = true →
      themeAt (user_signup hash now newId users email password
        primary_account name phone sq sa).users newId = some "light") ∧
    (hasKey users uid = true →
      set_user_theme users uid theme =
        (⟨true, "Theme updated", none⟩,
          dictUpdate users uid fun u =>
            { u with theme := if theme = "light" ∨ theme = "dark" then theme
                              else "light" })) ∧
    (writesTheme op = false →
      ∀ uid2, themeAt (applyOp hash users op) uid2 = themeAt users uid2) := by
  refine ⟨?_, ?_, ?_, ?_⟩
  · by_cases hw : writesTheme op = false
    · rcases applyOp_nonwriter_shape hash users op hw with heq | ⟨k, f, hf, heq⟩
      · rw [heq]; exact h
      · rw [heq]; exact themeOK_dictUpdate h fun u hu => by rw [hf]; exact hu
    · cases op with
      | signup now1 newId1 email1 pw1 primary1 name1 phone1 sq1 sa1 =>
          rcases user_signup_cases hash now1 newId1 users email1 pw1
            primary1 name1 phone1 sq1 sa1 with heq | ⟨-, hu, -⟩
          · simp only [applyOp]; rw [heq]
            exact themeOK_dictSet h (Or.inl rfl)
          · simp only [applyOp]; rw [hu]; exact h
      | setTheme uid1 t1 =>
          simp only [applyOp, set_user_theme]
          by_cases hk : hasKey users uid1 = false
          · simp [hk]; exact h
          · simp only [if_neg hk]
            exact themeOK_dictUpdate h fun u hu => by
              dsimp only
              split
              · next hc => exact hc
              · exact Or.inl rfl
      | login e p => exact absurd rfl hw
      | registerDevice n u1 d1 n1 => exact absurd rfl hw
      | addCaretaker u1 c1 => exact absurd rfl hw
      | setMedicines u1 m1 => exact absurd rfl hw
      | verifyAnswer e a => exact absurd rfl hw
      | resetPassword u1 p1 => exact absurd rfl hw
  · intro hs
    obtain ⟨-, -, -, -, -, -, -, heq⟩ :=
      user_signup_success_spec hash now newId users email password
        primary_account name phone sq sa hs
    rw [heq]
    unfold themeAt
    rw [dictGet?_dictSet]
    simp [newUserRecord]
  · intro huid
    unfold set_user_theme
    rw [if_neg (by simp [huid])]
  · intro hw uid2
    rcases applyOp_nonwriter_shape hash users op hw with heq | ⟨k, f, hf, heq⟩
    · rw [heq]
    · rw [heq]; exact themeAt_dictUpdate hf uid2

/-- C9 witness: applying set_user_theme with the invalid theme purple
to a store satisfying the invariant keeps the invariant. -/
theorem c9_theme_light_or_dark_witness :
    themeOK (applyOp (fun s => s) wStore (.setTheme "u1" "purple")) :=
  (c9_theme_light_or_dark (fun s => s) wStore (.setTheme "u1" "purple") 0
    "u9" "e@x.y" "Abcde1!" "u1" "purple" true none none none none
    (by decide)).1

end Shared
